import Mathlib

/-!
Verification development for the LPIS index-and-search FastAPI service
(`main.py`).  The Python code is shallowly embedded: pure helpers become
Lean functions, the stateful cache and its background worker become
explicit state-passing, and network interaction (the mechanize browser,
BeautifulSoup fetches) is represented by oracle parameters holding the
data those calls would have produced.  Timestamps are `Nat` seconds;
raised Python exceptions are `Except` errors.
-/

namespace Lpis

/-! ### Python string primitives

`_norm` in the source is
`unicodedata.normalize("NFKD", s).encode("ascii","ignore").decode("ascii")`
followed by whitespace collapsing, strip and lower; the pass-1 helper
`norm_sub` uses NFD instead and does not collapse.  We model the
NFKD/NFD + ASCII-ignore composition on the Latin-1 repertoire by a
character table; characters outside the table have no ASCII
decomposition and are dropped, exactly as `encode("ascii","ignore")`
drops them. -/

/-- Whitespace characters matched by Python's `\s` / `str.strip()` (ASCII range). -/
def pyIsSpace (c : Char) : Bool :=
  c = ' ' || c = '\t' || c = '\n' || c = '\r' || c = '\x0b' || c = '\x0c'

/-- NFKD decomposition followed by `encode("ascii", "ignore")`, per character. -/
def foldCharK (c : Char) : List Char :=
  if c.val < 128 then [c] else
  match c with
  | 'ä' | 'à' | 'á' | 'â' | 'ã' | 'å' => ['a']
  | 'Ä' | 'À' | 'Á' | 'Â' | 'Ã' | 'Å' => ['A']
  | 'è' | 'é' | 'ê' | 'ë' => ['e']
  | 'È' | 'É' | 'Ê' | 'Ë' => ['E']
  | 'ì' | 'í' | 'î' | 'ï' => ['i']
  | 'Ì' | 'Í' | 'Î' | 'Ï' => ['I']
  | 'ö' | 'ò' | 'ó' | 'ô' | 'õ' => ['o']
  | 'Ö' | 'Ò' | 'Ó' | 'Ô' | 'Õ' => ['O']
  | 'ü' | 'ù' | 'ú' | 'û' => ['u']
  | 'Ü' | 'Ù' | 'Ú' | 'Û' => ['U']
  | 'ñ' => ['n'] | 'Ñ' => ['N']
  | 'ç' => ['c'] | 'Ç' => ['C']
  | 'ý' | 'ÿ' => ['y'] | 'Ý' => ['Y']
  | ' ' => [' ']   -- NBSP has a compatibility decomposition to SPACE
  | _ => []             -- no ASCII decomposition: dropped by encode("ascii","ignore")

/-- NFD decomposition followed by `encode("ascii", "ignore")`, per character.
NFD lacks the compatibility decompositions, so NBSP is dropped instead of
becoming a space; the canonical (accent) decompositions agree with NFKD. -/
def foldCharD (c : Char) : List Char :=
  if c = ' ' then [] else foldCharK c

/-- Source: `unicodedata.normalize("NFKD", s).encode("ascii","ignore").decode("ascii")`. -/
def asciiFoldK (s : String) : String := String.mk (s.data.flatMap foldCharK)

/-- Source: `unicodedata.normalize("NFD", s).encode("ascii","ignore").decode("ascii")`. -/
def asciiFoldD (s : String) : String := String.mk (s.data.flatMap foldCharD)

/-- Collapse each maximal run of whitespace to one space (`re.sub(r"\s+", " ", s)`). -/
def collapseWsGo : List Char → Bool → List Char
  | [], _ => []
  | c :: cs, prevWs =>
    if pyIsSpace c then
      (if prevWs then collapseWsGo cs true else ' ' :: collapseWsGo cs true)
    else c :: collapseWsGo cs false

/-- Python `str.strip()` on a character list. -/
def stripList (l : List Char) : List Char :=
  ((l.dropWhile pyIsSpace).reverse.dropWhile pyIsSpace).reverse

/-- Python `str.strip()`. -/
def pyStrip (s : String) : String := String.mk (stripList s.data)

/-- Source: `re.sub(r"\s+", " ", s).strip()`. -/
def wsNorm (s : String) : String := String.mk (stripList (collapseWsGo s.data false))

/-- Python `str.lower()`, restricted to ASCII plus the umlauts appearing in
the portal's German marker phrases. -/
def pyLowerChar (c : Char) : Char :=
  if c = 'Ä' then 'ä' else if c = 'Ö' then 'ö' else if c = 'Ü' then 'ü'
  else c.toLower

/-- Python `str.lower()` (see `pyLowerChar`). -/
def pyLower (s : String) : String := String.mk (s.data.map pyLowerChar)

/-- Source: `_norm` from `main.py`: NFKD fold to ASCII, collapse whitespace, strip, lower. -/
def pynorm (s : String) : String := pyLower (wsNorm (asciiFoldK s))

/-- Source: `norm_sub` from `courses_search`: NFD fold to ASCII, lower (no collapsing). -/
def normSub (s : String) : String := pyLower (asciiFoldD s)

/-- Substring test on character lists: `n` occurs contiguously in the list. -/
def listIn (n : List Char) : List Char → Bool
  | [] => n.isEmpty
  | c :: cs => n.isPrefixOf (c :: cs) || listIn n cs

/-- Python's substring operator `needle in hay`. -/
def strIn (needle hay : String) : Bool := listIn needle.data hay.data

/-- Word splitter: `cur` holds the reversed characters of the current word. -/
def splitWsGo : List Char → List Char → List String
  | [], cur => if cur = [] then [] else [String.mk cur.reverse]
  | c :: cs, cur =>
    if pyIsSpace c then
      if cur = [] then splitWsGo cs []
      else String.mk cur.reverse :: splitWsGo cs []
    else splitWsGo cs (c :: cur)

/-- Python `s.split()` (split on whitespace runs, dropping empty pieces). -/
def pysplitWs (s : String) : List String := splitWsGo s.data []

/-- Source: `tokens = [_norm(t) for t in (q or "").split() if t]`. -/
def searchTokens (q : String) : List String := (pysplitWs q).map pynorm

/-- Split at every character satisfying `p`, keeping empty pieces. -/
def splitOnPredGo (p : Char → Bool) : List Char → List Char → List String
  | [], cur => [String.mk cur.reverse]
  | c :: cs, cur =>
    if p c then String.mk cur.reverse :: splitOnPredGo p cs []
    else splitOnPredGo p cs (c :: cur)

def joinSpaceData : List String → List Char
  | [] => []
  | [s] => s.data
  | s :: rest => s.data ++ (' ' :: joinSpaceData rest)

/-- Source: `" ".join(parts)`. -/
def joinSpace (parts : List String) : String := String.mk (joinSpaceData parts)

/-- Source: `" ".join(filter(None, parts))`: drop empty strings, join with spaces. -/
def filterJoin (parts : List String) : String :=
  joinSpace (parts.filter (· ≠ ""))

/-- Decimal value of a digit list (Python `int` on a digits-only string). -/
def digitsVal (l : List Char) : Nat := l.foldl (fun n c => n * 10 + (c.toNat - 48)) 0

/-- Python slicing `s[:n]` (by code points). -/
def pyTruncate (s : String) (n : Nat) : String := String.mk (s.data.take n)

/-- Python `a or b` on optional strings (`None` and `""` are falsy). -/
def pyOr (a b : Option String) : Option String :=
  match a with
  | some s => if s = "" then b else some s
  | none => b

/-! ### Configuration and the canonical course item -/

def INDEX_TTL_SECONDS : Nat := 600
def REBUILD_TIME_BUDGET : Nat := 25

/-- The dict appended by `_parse_lv_rows_fast` (the canonical course item). -/
structure Item where
  pp : String
  lv : String
  title : String
  lecturers : List String
  semester : Option String := none
  status : Option String := none
  capacity : Option Nat := none
  free : Option Nat := none
  waitlist : Option String := none
  waitlistCount : Nat := 0
  enrollOpenAt : Option String := none
deriving Repr, DecidableEq

/-- Source: `_split_lecturers`: split on runs of `·•|,;/`, strip, drop empties. -/
def lecSepChar (c : Char) : Bool :=
  c = '·' || c = '•' || c = '|' || c = ',' || c = ';' || c = '/'

def splitLecturers (prof : String) : List String :=
  if prof = "" then []
  else ((splitOnPredGo lecSepChar prof.data []).map pyStrip).filter (· ≠ "")

/-- Source: `_matches` from `main.py` (strict AND over title, lecturer string, course id).
This is also the property the specification states for the strict tiers. -/
def matchesStrict (tokens : List String) (title prof lvId : String) : Bool :=
  if tokens = [] then true
  else tokens.all fun t => strIn t (pynorm (filterJoin [title, prof, lvId]))

/-- The specification's strict-match property on a course item: every token
appears in the normalized concatenation of title, lecturer names and course id. -/
def strictItemMatch (tokens : List String) (it : Item) : Bool :=
  matchesStrict tokens it.title (joinSpace it.lecturers) it.lv

/-! ### The LV table row model

A row of a DLVO page's `b3k-data` table, represented by the results of the
BeautifulSoup selector queries `_parse_lv_rows_fast` performs on it.  A
field is `none` when the selector finds no element; when it finds one, the
field holds that element's `get_text(" ", strip=True)` text. -/

/-- The `td.capacity div[title*="Anzahl Warteliste"]` element, when present:
its optional inner `span` text and its own text. -/
structure WlDiv where
  spanText : Option String
  divText : String
deriving Repr, DecidableEq

/-- The `td.ver_title` cell: its full text, the texts of its bare (direct)
string children, and the text of the first `a, strong, span` child. -/
structure NameTd where
  fullText : String
  bareTexts : List String
  firstEl : Option String
deriving Repr, DecidableEq

structure LvRow where
  verIdText : Option String := none    -- `.ver_id a`
  semText : Option String := none      -- `.ver_id span`
  profText : Option String := none     -- `.ver_title div`
  nameTd : Option NameTd := none       -- `td.ver_title`
  statusText : Option String := none   -- `td.box div`
  capText : Option String := none      -- `div[class*="capacity_entry"]`
  wl : Option WlDiv := none            -- `td.capacity div[title*="Anzahl Warteliste"]`
  actionText : Option String := none   -- `td.action`
deriving Repr, DecidableEq

/-- A DLVO page: `none` when the `b3k-data` table or its `tbody` is missing. -/
structure LvPage where
  body : Option (List LvRow)
deriving Repr, DecidableEq

/-- Python exceptions raised by the row parser's waitlist re-evaluation. -/
inductive PyErr where
  | nameError        -- local variable `span` referenced before assignment
  | attributeError   -- `None.get_text` on an absent `wl_div`
deriving Repr, DecidableEq

/-- Source: `lv_id = (ver_id_link.get_text(" ", strip=True) or "").strip()`, with the
two `continue` guards (missing link, empty id) folded into `none`. -/
def rowLvId (r : LvRow) : Option String :=
  match r.verIdText with
  | none => none
  | some t => let l := pyStrip t; if l = "" then none else some l

/-- The robust title extraction of `_parse_lv_rows_fast` (lines 137-163).
Returns `(title, fallback_full)`. -/
def computeTitle (r : LvRow) (prof : String) : String × String :=
  match r.nameTd with
  | none => ("", "")
  | some td =>
    let fallbackFull := pyStrip td.fullText
    let bare := (td.bareTexts.map pyStrip).filter (· ≠ "")
    let t1 := bare.getLast?.getD ""
    let t2 := if t1 = "" then pyStrip (td.firstEl.getD "") else t1
    let t3 := if t2 ≠ "" ∧ prof ≠ "" ∧ pynorm t2 = pynorm prof then "" else t2
    let t4 :=
      if t3 = "" ∧ fallbackFull ≠ "" then
        if prof ≠ "" ∧ (pyLower prof).data.isSuffixOf (pyLower fallbackFull).data then
          stripTitleChars (removeProfSuffix fallbackFull prof)
        else fallbackFull
      else t3
    (wsNorm t4, fallbackFull)
where
  /-- the char set of `.strip(" -·• ")` -/
  titleStripChar (c : Char) : Bool :=
    c = ' ' || c = '-' || c = '·' || c = '•' || c = ' '
  stripTitleChars (s : String) : String :=
    String.mk (((s.data.dropWhile titleStripChar).reverse.dropWhile titleStripChar).reverse)
  /-- leftmost index at which `prof` followed only by whitespace ends the list -/
  profSuffixIdx (prof : List Char) : List Char → Option Nat
    | [] => if prof = [] then some 0 else none
    | c :: cs =>
      if prof.isPrefixOf (c :: cs) ∧ ((c :: cs).drop prof.length).all pyIsSpace then some 0
      else match profSuffixIdx prof cs with
        | some i => some (i + 1)
        | none => none
  /-- Source: `re.sub(re.escape(prof) + r"\s*$", "", fallback_full)` -/
  removeProfSuffix (s prof : String) : String :=
    match profSuffixIdx prof.data s.data with
    | some i => String.mk (s.data.take i)
    | none => s

/-- Last index of `c` in `l` (`str.rindex`), `none` when absent (ValueError). -/
def rIndexOf (l : List Char) (c : Char) : Option Nat :=
  match l with
  | [] => none
  | x :: xs =>
    match rIndexOf xs c with
    | some i => some (i + 1)
    | none => if x = c then some 0 else none

/-- Source: `int(re.sub(r"[^\d]", "", s))`: keep the digits, `none` when that raises
(ValueError on the empty string). -/
def pyIntDigits (s : String) : Option Nat :=
  let ds := s.data.filter Char.isDigit
  if ds = [] then none else some (digitsVal ds)

/-- The capacity parse (lines 169-180): split at the last `/`; an exception
at any point leaves the fields assigned so far (`(free, cap)`). -/
def parseCapacity (ct : String) : Option Nat × Option Nat :=
  match rIndexOf ct.data '/' with
  | none => (none, none)
  | some i =>
    let freeTxt := pyStrip (String.mk (ct.data.take i))
    let capTxt2 := pyStrip (String.mk (ct.data.drop (i + 1)))
    if freeTxt = "" then
      (none, if capTxt2 = "" then none else
        match pyIntDigits capTxt2 with
        | none => none        -- int("") raised; cap_val keeps its initial None
        | some c => some c)
    else
      match pyIntDigits freeTxt with
      | none => (none, none)  -- int("") raised before cap_val was assigned
      | some f =>
        (some f, if capTxt2 = "" then none else
          match pyIntDigits capTxt2 with
          | none => none      -- raised; free_val keeps its assigned value
          | some c => some c)

/-- Source: `int(''.join(filter(str.isdigit, waitlist))) if waitlist else 0`, with the
surrounding `try/except` mapping failures to 0. -/
def waitlistCountOf (w : Option String) : Nat :=
  match w with
  | none => 0
  | some s =>
    if s = "" then 0
    else
      let ds := s.data.filter Char.isDigit
      if ds = [] then 0 else digitsVal ds

/-- Consume exactly `n` characters satisfying `p`. -/
def takeExact (p : Char → Bool) : Nat → List Char → Option (List Char × List Char)
  | 0, l => some ([], l)
  | _ + 1, [] => none
  | n + 1, c :: cs =>
    if p c then (takeExact p n cs).map (fun a => (c :: a.1, a.2)) else none

def expectChar (c : Char) : List Char → Option (List Char)
  | [] => none
  | x :: xs => if x = c then some xs else none

/-- Match `\d{2}\.\d{2}\.\d{4}\s*\d{2}:\d{2}` at the start of the list and
return the captured characters. -/
def matchDateGroup (l : List Char) : Option (List Char) := do
  let (d1, r) ← takeExact Char.isDigit 2 l
  let r ← expectChar '.' r
  let (d2, r) ← takeExact Char.isDigit 2 r
  let r ← expectChar '.' r
  let (d3, r) ← takeExact Char.isDigit 4 r
  let ws := r.takeWhile pyIsSpace
  let r := r.dropWhile pyIsSpace
  let (h, r) ← takeExact Char.isDigit 2 r
  let r ← expectChar ':' r
  let (mnt, _) ← takeExact Char.isDigit 2 r
  pure (d1 ++ ['.'] ++ d2 ++ ['.'] ++ d3 ++ ws ++ h ++ [':'] ++ mnt)

/-- Source: `re.search(r"ab\s*(\d{2}\.\d{2}\.\d{4}\s*\d{2}:\d{2})", txt)`: try the
pattern at each position, leftmost match wins. -/
def reSearchAb : List Char → Option (List Char)
  | [] => none
  | c :: cs =>
    if c = 'a' then
      match cs with
      | 'b' :: rest =>
        (match matchDateGroup (rest.dropWhile pyIsSpace) with
         | some g => some g
         | none => reSearchAb cs)
      | _ => reSearchAb cs
    else reSearchAb cs

/-- Split at the first occurrence of `c` (one step of `str.split(c, n)`). -/
def splitOnFirst (c : Char) : List Char → Option (List Char × List Char)
  | [] => none
  | x :: xs =>
    if x = c then some ([], xs)
    else (splitOnFirst c xs).map (fun a => (x :: a.1, a.2))

/-- Convert the captured date `"DD.MM.YYYY HH:MM"` to ISO form; a failed
unpacking (ValueError caught by the bare `except`) yields the raw group. -/
def convertDate (g : String) : String :=
  match splitOnFirst '.' g.data with
  | none => g
  | some (day, r1) =>
    match splitOnFirst '.' r1 with
    | none => g
    | some (month, yearTime) =>
      match splitOnFirst ' ' yearTime with
      | none => g   -- `year, timepart = year_time.split(' ', 1)` raised
      | some (year, timePart) =>
        String.mk (year ++ ['-'] ++ month ++ ['-'] ++ day ++ ['T'] ++ timePart
          ++ [':', '0', '0', 'Z'])

/-- The `enroll_open_at` extraction (lines 204-218). -/
def parseEnrollOpen (action : Option String) : Option String :=
  match action with
  | none => none
  | some txt =>
    match reSearchAb txt.data with
    | none => none
    | some g => some (convertDate (String.mk g))

/-- One loop iteration of `_parse_lv_rows_fast` on one row.  `env` is the
binding state of the Python local `span` (`none` = never assigned;
`some v` = assigned, with `v` the text of the bound span or `none` when
`span` was bound to `None`). -/
inductive RowStep where
  | skip (env : Option (Option String))
  | emit (it : Item) (env : Option (Option String))
  | err (e : PyErr)
deriving Repr, DecidableEq

/-- The waitlist block (lines 182-187): the value `waitlist` holds after it. -/
def waitlistOrig (r : LvRow) : Option String :=
  match r.wl with
  | some w => some (pyStrip (match w.spanText with | some t => t | none => w.divText))
  | none => none

/-- The binding state of the local `span` after the waitlist block:
`wl_div` is rebound every row, `span` only when `wl_div` is truthy. -/
def spanEnvAfter (r : LvRow) (env : Option (Option String)) : Option (Option String) :=
  match r.wl with
  | some w => some w.spanText
  | none => env

/-- The re-evaluation of
`(span.get_text(...) if span else wl_div.get_text(...)).strip()` inside the
token-match branch (lines 195-196): an unbound `span` raises `NameError`, a
`span` bound to `None` with the current row's `wl_div` absent raises
`AttributeError` (`None.get_text`). -/
def waitlistRematch (r : LvRow) (env1 : Option (Option String)) :
    Except PyErr (Option String) :=
  match env1 with
  | none => .error .nameError
  | some (some t) => .ok (some (pyStrip t))
  | some none =>
    match r.wl with
    | none => .error .attributeError
    | some w => .ok (some (pyStrip w.divText))

/-- The haystack match of the strict provisional filter (lines 190-193). -/
def rowHayMatch (tokens : List String) (title prof lvId fb : String) : Bool :=
  tokens.all fun t => strIn t (pynorm (filterJoin [title, prof, lvId, fb]))

/-- Source: `prof = (prof_div.get_text(" ", strip=True) if prof_div else "").strip()`. -/
def rowProf (r : LvRow) : String := pyStrip (r.profText.getD "")

/-- The stripped full text of the row's title cell: the value `fallback_full`
holds in the haystack of the strict provisional filter. -/
def rowFallbackFull (r : LvRow) : String :=
  pyStrip ((r.nameTd.map fun td => td.fullText).getD "")

def processRow (ppId : String) (tokens : List String) (r : LvRow)
    (env : Option (Option String)) : RowStep :=
  match rowLvId r with
  | none => .skip env
  | some lvId =>
    let prof := rowProf r
    let tf := computeTitle r prof
    let fc := match r.capText with
      | none => ((none : Option Nat), (none : Option Nat))
      | some ct => parseCapacity ct
    let env1 := spanEnvAfter r env
    if tokens ≠ [] ∧ ¬ rowHayMatch tokens tf.1 prof lvId tf.2 = true then
      .skip env1
    else
      match (if tokens = [] then .ok (waitlistOrig r) else waitlistRematch r env1 :
          Except PyErr (Option String)) with
      | .error e => .err e
      | .ok w =>
        .emit { pp := ppId, lv := lvId, title := tf.1, lecturers := splitLecturers prof,
                semester := r.semText, status := r.statusText, capacity := fc.2,
                free := fc.1, waitlist := w, waitlistCount := waitlistCountOf w,
                enrollOpenAt := parseEnrollOpen r.actionText } env1

/-- Source: `if cap and len(out) >= cap` (Python truthiness of `cap`). -/
def capStop (cap : Option Nat) (n : Nat) : Bool :=
  match cap with
  | none => false
  | some c => if c = 0 then false else decide (c ≤ n)

/-- The row loop of `_parse_lv_rows_fast`: `out` is the caller's accumulator
list (appended in place in the source), the result flags cap exhaustion. -/
def parseLvRowsLoop (ppId : String) (tokens : List String) (cap : Option Nat) :
    List LvRow → Option (Option String) → List Item → Except PyErr (List Item × Bool)
  | [], _, out => .ok (out, false)
  | r :: rest, env, out =>
    match processRow ppId tokens r env with
    | .err e => .error e
    | .skip env1 => parseLvRowsLoop ppId tokens cap rest env1 out
    | .emit it env1 =>
      let out1 := out ++ [it]
      if capStop cap out1.length then .ok (out1, true)
      else parseLvRowsLoop ppId tokens cap rest env1 out1

/-- Source: `_parse_lv_rows_fast` (the Python local `span` starts unbound). -/
def parseLvRowsFast (ppId : String) (page : LvPage) (tokens : List String)
    (cap : Option Nat) (out : List Item) : Except PyErr (List Item × Bool) :=
  match page.body with
  | none => .ok (out, false)
  | some rows => parseLvRowsLoop ppId tokens cap rows none out

/-! ### The full index build (`_build_index`)

The plan table rows and the network fetches they trigger are oracle data:
each `PlanRow` carries the selector results on the study-plan row plus what
`client.browser.open` would return for its DLVO link, and `dur` — the
wall-clock seconds consumed by opening/reading/parsing that plan point. -/

structure PlanRow where
  aId : Option String := none       -- `planpunkt.find("a")["id"]` when present
  dlvoHref : Option String := none  -- `a[href*="DLVO"]`'s href
  fetch : Option LvPage := none     -- `none` when `browser.open` raised
  dur : Nat := 0
deriving Repr, DecidableEq

/-- Source: `pp_id = a_tag["id"][1:]` with the truthiness guard on the id. -/
def planPp (pr : PlanRow) : Option String :=
  match pr.aId with
  | none => none
  | some i => if i = "" then none else some (String.mk (i.data.drop 1))

/-- Source: `(link_lv.get("href", "") or "").strip()` with the emptiness guard. -/
def planHref (pr : PlanRow) : Option String :=
  match pr.dlvoHref with
  | none => none
  | some h => let s := pyStrip h; if s = "" then none else some s

/-- The plan-point enumeration of `_build_index` with the budget check
removed: what a build collects from a given list of plan rows. -/
def collectItems : List PlanRow → List Item → Except PyErr (List Item)
  | [], items => .ok items
  | pr :: rest, items =>
    match planPp pr with
    | none => collectItems rest items
    | some ppId =>
      match planHref pr with
      | none => collectItems rest items
      | some _ =>
        match pr.fetch with
        | none => collectItems rest items
        | some page =>
          match parseLvRowsFast ppId page [] none items with
          | .error e => .error e
          | .ok (out, _) => collectItems rest out

/-- The plan-point loop of `_build_index` (lines 282-303): the budget check
`(_now() - start) > REBUILD_TIME_BUDGET` runs at the top of each iteration;
`clock` advances by `dur` whenever the DLVO fetch is attempted. -/
def buildLoop (budget start : Nat) :
    List PlanRow → Nat → List Item → Except PyErr (Nat × List Item)
  | [], clock, items => .ok (clock, items)
  | pr :: rest, clock, items =>
    if budget < clock - start then .ok (clock, items)
    else
      match planPp pr with
      | none => buildLoop budget start rest clock items
      | some ppId =>
        match planHref pr with
        | none => buildLoop budget start rest clock items
        | some _ =>
          let clock1 := clock + pr.dur
          match pr.fetch with
          | none => buildLoop budget start rest clock1 items
          | some page =>
            match parseLvRowsFast ppId page [] none items with
            | .error e => .error e
            | .ok (out, _) => buildLoop budget start rest clock1 out

/-- Source: `_build_index` from the study-plan table on: returns the flat item list. -/
def buildIndexModel (budget start : Nat) (rows : List PlanRow) :
    Except PyErr (List Item) :=
  (buildLoop budget start rows start []).map (·.2)

/-! ### The per-account cache entry and the rebuild worker -/

/-- One `_CACHE[username]` entry. -/
structure Entry where
  items : List Item
  updated : Nat
  building : Bool
  lastError : Option String
  buildStarted : Option Nat
  buildFinished : Option Nat
deriving Repr, DecidableEq

/-- The entry created on first access. -/
def newEntry : Entry :=
  { items := [], updated := 0, building := false, lastError := none,
    buildStarted := none, buildFinished := none }

/-- Source: `_is_fresh` at time `now`. -/
def isFreshAt (now : Nat) (e : Entry) : Bool :=
  decide (now - e.updated < INDEX_TTL_SECONDS)

/-- The `_worker` closure of `_ensure_index` run to completion: `result` is
what `_build_index` returned (or the message of the exception it raised),
`tStart`/`tUpd`/`tFin` the values `_now()` takes at the worker's start, at
the success assignment to `updated`, and in the `finally` block. -/
def workerRun (e : Entry) (result : Except String (List Item))
    (tStart tUpd tFin : Nat) : Entry :=
  let e1 := { e with building := true, lastError := none,
                     buildStarted := some tStart, buildFinished := none }
  let e2 := match result with
    | .ok items => { e1 with items := items, updated := tUpd }
    | .error msg => { e1 with lastError := some (pyTruncate msg 500) }
  { e2 with building := false, buildFinished := some tFin }

/-! ### Interleaving model of `_ensure_index`

`_ensure_index` holds `_CACHE_LOCK` for its whole body, so it is one atomic
step; the spawned worker thread runs later, and its first statement
(`entry["building"] = True`) is a separate step.  A schedule is a list of
such steps. -/

inductive BuildEv where
  /-- one `_ensure_index(username, password, force)` call at time `now` -/
  | ensure (now : Nat) (force : Bool)
  /-- worker `w` executes the head of `_worker` (sets the building flag) -/
  | beginWorker (w : Nat) (t : Nat)
  /-- worker `w` executes the rest of `_worker` (try/except/finally) -/
  | endWorker (w : Nat) (result : Except String (List Item)) (tUpd tFin : Nat)
deriving Repr

structure BuildSys where
  entry : Option Entry
  spawned : Nat         -- number of worker threads started (ids 0,1,...)
  begun : List Nat
  finished : List Nat
deriving Repr, DecidableEq

def initSys : BuildSys := { entry := none, spawned := 0, begun := [], finished := [] }

/-- The locked body of `_ensure_index` (lines 309-337). -/
def ensureStep (now : Nat) (force : Bool) (s : BuildSys) : BuildSys :=
  match s.entry with
  | some e =>
    if ¬ force ∧ isFreshAt now e = true then s
    else if e.building then s
    else { s with spawned := s.spawned + 1 }
  | none =>
    { s with entry := some newEntry, spawned := s.spawned + 1 }

/-- Source: `entry["building"] = True; entry["last_error"] = None; ...` -/
def beginStep (w t : Nat) (s : BuildSys) : BuildSys :=
  if w < s.spawned ∧ ¬ w ∈ s.begun then
    match s.entry with
    | some e =>
      { s with
        entry := some { e with building := true, lastError := none,
                               buildStarted := some t, buildFinished := none },
        begun := s.begun ++ [w] }
    | none => s
  else s

/-- The worker's `try/except/finally` block. -/
def endStep (w : Nat) (result : Except String (List Item)) (tUpd tFin : Nat)
    (s : BuildSys) : BuildSys :=
  if w ∈ s.begun ∧ ¬ w ∈ s.finished then
    match s.entry with
    | some e =>
      let e1 := match result with
        | .ok items => { e with items := items, updated := tUpd }
        | .error msg => { e with lastError := some (pyTruncate msg 500) }
      { s with
        entry := some { e1 with building := false, buildFinished := some tFin },
        finished := s.finished ++ [w] }
    | none => s
  else s

def buildStep (s : BuildSys) : BuildEv → BuildSys
  | .ensure now force => ensureStep now force s
  | .beginWorker w t => beginStep w t s
  | .endWorker w result tUpd tFin => endStep w result tUpd tFin s

def runBuild (s0 : BuildSys) (evs : List BuildEv) : BuildSys := evs.foldl buildStep s0

/-- Workers that have started running and not yet finished. -/
def activeBuilders (s : BuildSys) : Nat := s.begun.length - s.finished.length

/-! ### The tiered search (`courses_search`) -/

/-- Source: `cap = int(p.limit) if (isinstance(p.limit, int) and p.limit and p.limit > 0) else None`. -/
def mkCap (limit : Option Int) : Option Nat :=
  match limit with
  | some l => if 0 < l then some l.toNat else none
  | none => none

/-- The append-then-break filtering loop shared by pass 1, pass 2 and the
pass-3 OR-filter: append each matching item, stop once `cap` is reached.
`n` is the number of items appended so far. -/
def filterCap (p : Item → Bool) (cap : Option Nat) : List Item → Nat → List Item
  | [], _ => []
  | it :: rest, n =>
    if p it then
      it :: (if capStop cap (n + 1) then [] else filterCap p cap rest (n + 1))
    else filterCap p cap rest n

/-- Pass-1 predicate: `qnorm in title_norm or qnorm in code_norm` where
`code_norm = (pp + lv).lower()`. -/
def strictCachePred (qnorm : String) (it : Item) : Bool :=
  strIn qnorm (normSub it.title) || strIn qnorm (pyLower (it.pp ++ it.lv))

/-- The OR-match haystack used by pass 2 and the pass-3 filter. -/
def relaxedHay (it : Item) : String :=
  pynorm (filterJoin [it.title, joinSpace it.lecturers, it.lv])

/-- Relaxed (OR) predicate: some token occurs in title, lecturers or course id. -/
def relaxedPred (tokens : List String) (it : Item) : Bool :=
  tokens.any fun t => strIn t (relaxedHay it)

/-- Pass 1 (lines 764-776): substring filter on the cache snapshot; an empty
normalized query returns the whole snapshot. -/
def strictPass (q : String) (cap : Option Nat) (snapshot : List Item) : List Item :=
  if normSub q = "" then snapshot
  else filterCap (strictCachePred (normSub q)) cap snapshot 0

/-- Source: `prov[: (cap or len(prov))]`. -/
def capOrLen (cap : Option Nat) (l : List Item) : List Item := l.take (cap.getD l.length)

/-- The provisional tier (lines 779-788).  `prov` is what `_provisional_scan`
returned, or the message of the exception it raised.  Result: the new `out`
and the `prov_error` recorded. -/
def provPass (tokens : List String) (cap : Option Nat) (out1 : List Item)
    (prov : Except String (List Item)) : List Item × Option String :=
  if out1 = [] ∧ tokens ≠ [] then
    match prov with
    | .ok l => (if l = [] then out1 else capOrLen cap l, none)
    | .error e => (out1, some e)
  else (out1, none)

/-- The relaxed OR-filter over the cache snapshot (lines 792-803). -/
def relaxedList (tokens : List String) (cap : Option Nat) (snapshot : List Item) :
    List Item := filterCap (relaxedPred tokens) cap snapshot 0

/-- Pass 2 (lines 791-805): relaxed match on the cache if still empty. -/
def relaxedPass (tokens : List String) (cap : Option Nat) (snapshot out2 : List Item) :
    List Item :=
  if out2 = [] ∧ tokens ≠ [] ∧ snapshot ≠ [] then
    if relaxedList tokens cap snapshot = [] then out2
    else relaxedList tokens cap snapshot
  else out2

/-- Pass 3 (lines 808-828): broad provisional scan, then the OR-filter.
`broad` is the second `_provisional_scan` result or its exception message. -/
def broadPass (tokens : List String) (cap : Option Nat) (out3 : List Item)
    (broad : Except String (List Item)) : List Item × Option String :=
  if out3 = [] ∧ tokens ≠ [] then
    match broad with
    | .ok b =>
      (if b = [] then out3
       else if filterCap (relaxedPred tokens) cap b 0 = [] then out3
       else filterCap (relaxedPred tokens) cap b 0, none)
    | .error e => (out3, some e)
  else (out3, none)

/-- The `courses_search` response: items, the `meta` dict, and trace fields
recording which tiers executed (observable control flow of the handler). -/
structure SearchOut where
  items : List Item
  metaCached : Bool
  metaUpdatedAt : Nat
  metaBuilding : Bool
  metaFresh : Bool
  metaProvisional : Bool
  metaLastError : Option String
  tier1Items : List Item
  tier2Items : List Item
  tier2Ran : Bool
  relaxedRan : Bool
  tier4Ran : Bool
deriving Repr, DecidableEq

/-- Source: `courses_search` after the cache snapshot is taken: `snapshot`,
`updated`, `building`, `lastError` are the entry fields read under the
lock, `now` the time of the freshness computation, `prov`/`broad` the two
`_provisional_scan` oracle results. -/
def coursesSearch (q : String) (limit : Option Int) (snapshot : List Item)
    (updated : Nat) (building : Bool) (lastError : Option String) (now : Nat)
    (prov broad : Except String (List Item)) : SearchOut :=
  let tokens := searchTokens q
  let cap := mkCap limit
  let out1 := strictPass q cap snapshot
  let p2 := provPass tokens cap out1 prov
  let out3 := relaxedPass tokens cap snapshot p2.1
  let p4 := broadPass tokens cap out3 broad
  let provErr := match p4.2 with
    | some e => pyOr p2.2 (some e)
    | none => p2.2
  { items := p4.1
    metaCached := decide (snapshot ≠ [])
    metaUpdatedAt := updated
    metaBuilding := building
    metaFresh := if updated ≠ 0 then isFreshAt now { newEntry with updated := updated } else false
    metaProvisional := decide (snapshot = [] ∨ (out1 = [] ∧ tokens ≠ []))
    metaLastError := pyOr provErr lastError
    tier1Items := out1
    tier2Items := p2.1
    tier2Ran := decide (out1 = [] ∧ tokens ≠ [])
    relaxedRan := decide (p2.1 = [] ∧ tokens ≠ [] ∧ snapshot ≠ [])
    tier4Ran := decide (out3 = [] ∧ tokens ≠ []) }

/-! ### Enrollment (`_submit_enroll_on_lv_page`) -/

/-- A row of the DLVO table as seen by the enrollment locator. -/
structure EnrollRow where
  verIdText : Option String := none   -- `.ver_id a`
  statusText : Option String := none  -- `td.box div`
  formName : Option String := none    -- `td.action form`'s `name` attribute
deriving Repr, DecidableEq

structure EnrollPage where
  body : Option (List EnrollRow)
deriving Repr, DecidableEq

inductive EnrollOutcome where
  | success | waitlist | already | closed | unknown
deriving Repr, DecidableEq

/-- HTTP-level failures of the enrollment flow. -/
inductive HErr where
  | notFound      -- 404: LV not found or no enroll form present
  | badGateway    -- 502: table missing / form not selectable
  | raised        -- an exception escaped (wrapped to 502 by the endpoint)
deriving Repr, DecidableEq

def closedMarkers : List String := ["nicht möglich", "gesperrt", "geschlossen"]
def confirmMarkers : List String :=
  ["bestätigen", "bestaetigen", "überprüfen", "ueberpruefen"]
def termMarkers : List String := ["erfolgreich", "warteliste", "bereits angemeldet"]
def successMarkers : List String :=
  ["erfolgreich angemeldet", "anmeldung erfolgreich", "erfolgreich durchgef"]
def alreadyMarkers : List String := ["bereits angemeldet", "schon angemeldet"]

/-- The terminal classification of the final page text (lines 665-672),
in source order: success, then waitlist, then already, then closed. -/
def classifyOutcome (p : String) : EnrollOutcome :=
  if successMarkers.any (fun k => strIn k p) then .success
  else if strIn "warteliste" p || strIn "auf die warteliste" p then .waitlist
  else if alreadyMarkers.any (fun k => strIn k p) then .already
  else if closedMarkers.any (fun k => strIn k p) then .closed
  else .unknown

/-- The row loop of `_submit_enroll_on_lv_page` (lines 552-569): find the
first row whose `.ver_id a` text equals `lv_id`; produce the pair
`(pre_status_txt, target_form_name)` those variables hold after the loop. -/
def locateLvRow (lvId : String) : List EnrollRow → String × Option String
  | [] => ("", none)
  | r :: rest =>
    match r.verIdText with
    | none => locateLvRow lvId rest
    | some t =>
      if pyStrip t = lvId then
        (pyLower (pyStrip (r.statusText.getD "")),
         match r.formName with
         | some n => if n = "" then none else some n
         | none => none)
      else locateLvRow lvId rest

/-- The result dict's `result` field plus a trace flag recording whether
`browser.submit()` was invoked. -/
structure EnrollResult where
  result : EnrollOutcome
  submitted : Bool
deriving Repr, DecidableEq

/-- The page text the terminal classification sees (lines 629-663): the
first submit's page text, lowered; when it matches a confirm marker and no
terminal marker, the confirm form is submitted and its page text (when that
step succeeded, `confirmRes = some t2`) replaces it. -/
def finalPageText (t1 : String) (confirmRes : Option String) : String :=
  let pt1 := pyLower t1
  if (confirmMarkers.any fun k => strIn k pt1) = true ∧
      ¬ (termMarkers.any fun k => strIn k pt1) = true then
    match confirmRes with
    | some t2 => pyLower t2
    | none => pt1
  else pt1

/-- Source: `_submit_enroll_on_lv_page`.  Browser interaction is oracle data:
`formSelectable` — the enroll form could be selected; `submitRes` — the
text of the page the first submit returned (`none` when submit raised);
`confirmRes` — the page text after the confirm-step submit (`none` when no
confirm form was picked or that submit raised, leaving the text unchanged). -/
def submitEnrollOnLvPage (page : EnrollPage) (lvId : String)
    (formSelectable : Bool) (submitRes : Option String)
    (confirmRes : Option String) : Except HErr EnrollResult :=
  match page.body with
  | none => .error .badGateway
  | some rows =>
    let lt := locateLvRow lvId rows
    match lt.2 with
    | none => .error .notFound
    | some _ =>
      if closedMarkers.any (fun k => strIn k lt.1) then .ok ⟨.closed, false⟩
      else if ¬ formSelectable then .error .badGateway
      else
        match submitRes with
        | none => .error .raised
        | some t1 => .ok ⟨classifyOutcome (finalPageText t1 confirmRes), true⟩

/-! ### Helper lemmas -/

theorem filterCap_mem {p : Item → Bool} {cap : Option Nat} :
    ∀ {l : List Item} {n : Nat} {it : Item},
      it ∈ filterCap p cap l n → p it = true ∧ it ∈ l := by
  intro l
  induction l with
  | nil => intro n it h; simp [filterCap] at h
  | cons x xs ih =>
    intro n it h
    simp only [filterCap] at h
    by_cases hp : p x = true
    · rw [if_pos hp] at h
      rcases List.mem_cons.mp h with h1 | h2
      · subst h1; exact ⟨hp, List.mem_cons_self _ _⟩
      · rcases hs : capStop cap (n + 1) with _ | _
        · rw [hs] at h2
          simp only [Bool.false_eq_true, if_false] at h2
          exact ⟨(ih h2).1, List.mem_cons_of_mem _ (ih h2).2⟩
        · rw [hs] at h2; simp at h2
    · rw [if_neg hp] at h
      exact ⟨(ih h).1, List.mem_cons_of_mem _ (ih h).2⟩

theorem filterCap_length {p : Item → Bool} {c : Nat} :
    ∀ (l : List Item) (n : Nat), n < c →
      (filterCap p (some c) l n).length + n ≤ c := by
  intro l
  induction l with
  | nil => intro n h; simpa [filterCap] using Nat.le_of_lt h
  | cons x xs ih =>
    intro n h
    simp only [filterCap]
    by_cases hp : p x = true
    · rw [if_pos hp]
      by_cases hs : capStop (some c) (n + 1) = true
      · rw [if_pos hs]; simp only [List.length_cons, List.length_nil]; omega
      · rw [if_neg hs]
        have hc0 : c ≠ 0 := by omega
        have hlt : ¬ c ≤ n + 1 := by simpa [capStop, hc0] using hs
        have := ih (n + 1) (by omega)
        simp only [List.length_cons]
        omega
    · rw [if_neg hp]; exact ih n h

theorem provPass_fst_empty {tokens : List String} {cap : Option Nat}
    {out1 : List Item} {prov : Except String (List Item)}
    (h : (provPass tokens cap out1 prov).1 = []) : out1 = [] := by
  unfold provPass at h
  by_cases hg : out1 = [] ∧ tokens ≠ []
  · exact hg.1
  · rw [if_neg hg] at h; exact h

theorem relaxedPass_empty {tokens : List String} {cap : Option Nat}
    {snapshot out2 : List Item}
    (h : relaxedPass tokens cap snapshot out2 = []) : out2 = [] := by
  unfold relaxedPass at h
  by_cases hg : out2 = [] ∧ tokens ≠ [] ∧ snapshot ≠ []
  · exact hg.1
  · rw [if_neg hg] at h; exact h

theorem computeTitle_snd_eq (r : LvRow) (prof : String) :
    (computeTitle r prof).2 = rowFallbackFull r := by
  rcases r with ⟨_, _, _, _ | td, _, _, _, _⟩
  · rfl
  · rfl

/-- An item the strict provisional filter emits from row `r` carries the
row's extracted title, lecturers and course id, and every token matches the
row's haystack (title, raw lecturer string, course id, title-cell text). -/
theorem processRow_emit_match {ppId : String} {tokens : List String} {r : LvRow}
    {env env1 : Option (Option String)} {it : Item}
    (ht : tokens ≠ [])
    (h : processRow ppId tokens r env = .emit it env1) :
    it.title = (computeTitle r (rowProf r)).1 ∧
    it.lecturers = splitLecturers (rowProf r) ∧
    rowLvId r = some it.lv ∧
    (tokens.all fun t => strIn t (pynorm (filterJoin
      [it.title, rowProf r, it.lv, rowFallbackFull r]))) = true := by
  unfold processRow at h
  rcases hlv : rowLvId r with _ | lvId
  · rw [hlv] at h; cases h
  · rw [hlv] at h
    simp only at h
    by_cases hm : tokens ≠ [] ∧
        ¬ rowHayMatch tokens (computeTitle r (rowProf r)).1 (rowProf r) lvId
            (computeTitle r (rowProf r)).2 = true
    · rw [if_pos hm] at h; cases h
    · rw [if_neg hm] at h
      have hall : rowHayMatch tokens (computeTitle r (rowProf r)).1 (rowProf r) lvId
          (computeTitle r (rowProf r)).2 = true := by
        by_contra hc
        exact hm ⟨ht, hc⟩
      rw [if_neg ht] at h
      rcases hw : waitlistRematch r (spanEnvAfter r env) with _ | w
      · rw [hw] at h; cases h
      · rw [hw] at h
        cases h
        refine ⟨rfl, rfl, rfl, ?_⟩
        rw [← computeTitle_snd_eq r (rowProf r)]
        exact hall

theorem parseLoop_mem {ppId : String} {tokens : List String} {cap : Option Nat}
    (ht : tokens ≠ []) :
    ∀ (rows : List LvRow) (env : Option (Option String)) (acc out : List Item)
      (b : Bool),
      parseLvRowsLoop ppId tokens cap rows env acc = .ok (out, b) →
      ∀ it ∈ out, it ∈ acc ∨ ∃ r ∈ rows,
        it.title = (computeTitle r (rowProf r)).1 ∧
        it.lecturers = splitLecturers (rowProf r) ∧
        rowLvId r = some it.lv ∧
        (tokens.all fun t => strIn t (pynorm (filterJoin
          [it.title, rowProf r, it.lv, rowFallbackFull r]))) = true := by
  intro rows
  induction rows with
  | nil =>
    intro env acc out b h it hit
    simp only [parseLvRowsLoop, Except.ok.injEq, Prod.mk.injEq] at h
    exact Or.inl (h.1 ▸ hit)
  | cons r rest ih =>
    intro env acc out b h it hit
    simp only [parseLvRowsLoop] at h
    split at h
    · cases h
    · rename_i env1 hpr
      rcases ih env1 acc out b h it hit with h1 | ⟨r1, hr1, hp1⟩
      · exact Or.inl h1
      · exact Or.inr ⟨r1, List.mem_cons_of_mem _ hr1, hp1⟩
    · rename_i it0 env1 hpr
      by_cases hs : capStop cap (acc ++ [it0]).length = true
      · rw [if_pos hs] at h
        simp only [Except.ok.injEq, Prod.mk.injEq] at h
        rcases List.mem_append.mp (h.1 ▸ hit) with h1 | h2
        · exact Or.inl h1
        · have heq : it = it0 := by simpa using h2
          exact Or.inr ⟨r, List.mem_cons_self _ _, heq ▸ processRow_emit_match ht hpr⟩
      · rw [if_neg hs] at h
        rcases ih env1 (acc ++ [it0]) out b h it hit with h1 | ⟨r1, hr1, hp1⟩
        · rcases List.mem_append.mp h1 with h3 | h4
          · exact Or.inl h3
          · have heq : it = it0 := by simpa using h4
            exact Or.inr ⟨r, List.mem_cons_self _ _, heq ▸ processRow_emit_match ht hpr⟩
        · exact Or.inr ⟨r1, List.mem_cons_of_mem _ hr1, hp1⟩

/-- With an empty token list the match branch never runs, so the parser
cannot raise. -/
theorem processRow_nil_not_err (ppId : String) (r : LvRow)
    (env : Option (Option String)) :
    ∀ e, processRow ppId [] r env ≠ .err e := by
  intro e h
  unfold processRow at h
  rcases hlv : rowLvId r with _ | lvId
  · rw [hlv] at h; cases h
  · rw [hlv] at h
    simp at h

theorem parseLoop_nil_ok (ppId : String) (cap : Option Nat) :
    ∀ (rows : List LvRow) (env : Option (Option String)) (acc : List Item),
      ∃ out b, parseLvRowsLoop ppId [] cap rows env acc = .ok (out, b) := by
  intro rows
  induction rows with
  | nil => intro env acc; exact ⟨acc, false, rfl⟩
  | cons r rest ih =>
    intro env acc
    rcases hpr : processRow ppId [] r env with env1 | ⟨it0, env1⟩ | e
    · simpa only [parseLvRowsLoop, hpr] using ih env1 acc
    · simp only [parseLvRowsLoop, hpr]
      by_cases hs : capStop cap (acc ++ [it0]).length = true
      · rw [if_pos hs]; exact ⟨acc ++ [it0], true, rfl⟩
      · rw [if_neg hs]; exact ih env1 (acc ++ [it0])
    · exact absurd hpr (processRow_nil_not_err ppId r env e)

theorem parseFast_nil_ok (ppId : String) (page : LvPage) (cap : Option Nat)
    (acc : List Item) :
    ∃ out b, parseLvRowsFast ppId page [] cap acc = .ok (out, b) := by
  rcases page with ⟨_ | rows⟩
  · exact ⟨acc, false, rfl⟩
  · exact parseLoop_nil_ok ppId cap rows none acc

theorem collectItems_ok :
    ∀ (rows : List PlanRow) (acc : List Item), ∃ l, collectItems rows acc = .ok l := by
  intro rows
  induction rows with
  | nil => intro acc; exact ⟨acc, rfl⟩
  | cons pr rest ih =>
    intro acc
    rcases h1 : planPp pr with _ | ppId
    · simpa only [collectItems, h1] using ih acc
    · rcases h2 : planHref pr with _ | href
      · simpa only [collectItems, h1, h2] using ih acc
      · rcases h3 : pr.fetch with _ | page
        · simpa only [collectItems, h1, h2, h3] using ih acc
        · obtain ⟨out, b, hp⟩ := parseFast_nil_ok ppId page none acc
          simp only [collectItems, h1, h2, h3, hp]
          exact ih out

/-- The budget loop always succeeds and returns exactly what the budget-free
enumeration collects from some prefix of the plan rows; the prefix is the
whole list unless the budget had been exceeded when the loop stopped. -/
theorem buildLoop_prefix (budget start : Nat) :
    ∀ (rows : List PlanRow) (clock : Nat) (acc : List Item),
      ∃ n c items, n ≤ rows.length ∧
        buildLoop budget start rows clock acc = .ok (c, items) ∧
        collectItems (rows.take n) acc = .ok items ∧
        (n = rows.length ∨ budget < c - start) := by
  intro rows
  induction rows with
  | nil =>
    intro clock acc
    exact ⟨0, clock, acc, Nat.le_refl 0, rfl, rfl, Or.inl rfl⟩
  | cons pr rest ih =>
    intro clock acc
    by_cases hb : budget < clock - start
    · exact ⟨0, clock, acc, Nat.zero_le _, by simp only [buildLoop, if_pos hb],
        rfl, Or.inr hb⟩
    · rcases h1 : planPp pr with _ | ppId
      · obtain ⟨n, c, items, hn, hloop, hcol, hlast⟩ := ih clock acc
        refine ⟨n + 1, c, items, by simpa using Nat.succ_le_succ hn, ?_, ?_, ?_⟩
        · simp only [buildLoop, if_neg hb, h1]; exact hloop
        · simpa only [List.take_succ_cons, collectItems, h1] using hcol
        · rcases hlast with h | h
          · exact Or.inl (by simp [h])
          · exact Or.inr h
      · rcases h2 : planHref pr with _ | href
        · obtain ⟨n, c, items, hn, hloop, hcol, hlast⟩ := ih clock acc
          refine ⟨n + 1, c, items, by simpa using Nat.succ_le_succ hn, ?_, ?_, ?_⟩
          · simp only [buildLoop, if_neg hb, h1, h2]; exact hloop
          · simpa only [List.take_succ_cons, collectItems, h1, h2] using hcol
          · rcases hlast with h | h
            · exact Or.inl (by simp [h])
            · exact Or.inr h
        · rcases h3 : pr.fetch with _ | page
          · obtain ⟨n, c, items, hn, hloop, hcol, hlast⟩ := ih (clock + pr.dur) acc
            refine ⟨n + 1, c, items, by simpa using Nat.succ_le_succ hn, ?_, ?_, ?_⟩
            · simp only [buildLoop, if_neg hb, h1, h2, h3]; exact hloop
            · simpa only [List.take_succ_cons, collectItems, h1, h2, h3] using hcol
            · rcases hlast with h | h
              · exact Or.inl (by simp [h])
              · exact Or.inr h
          · obtain ⟨out, b, hp⟩ := parseFast_nil_ok ppId page none acc
            obtain ⟨n, c, items, hn, hloop, hcol, hlast⟩ := ih (clock + pr.dur) out
            refine ⟨n + 1, c, items, by simpa using Nat.succ_le_succ hn, ?_, ?_, ?_⟩
            · simp only [buildLoop, if_neg hb, h1, h2, h3, hp]; exact hloop
            · simpa only [List.take_succ_cons, collectItems, h1, h2, h3, hp] using hcol
            · rcases hlast with h | h
              · exact Or.inl (by simp [h])
              · exact Or.inr h

/-! ### Concrete fixtures used by the claim theorems -/

/-- A row that matches the query token but has no waitlist capacity element:
its title cell text is `"x course"`. -/
def nameErrorRow : LvRow :=
  { verIdText := some "101",
    nameTd := some { fullText := "x course", bareTexts := ["x course"], firstEl := none } }

def nameErrorPage : LvPage := ⟨some [nameErrorRow]⟩

/-- A row whose title-cell full text carries `"zz"` while the extracted
title, lecturers and course id do not. -/
def fallbackOnlyRow : LvRow :=
  { verIdText := some "10",
    nameTd := some { fullText := "Intro zz", bareTexts := ["Intro"], firstEl := none },
    wl := some ⟨some "3", "3"⟩ }

def fallbackOnlyPage : LvPage := ⟨some [fallbackOnlyRow]⟩

/-- The item the strict provisional filter emits for `fallbackOnlyRow`. -/
def fallbackOnlyItem : Item :=
  { pp := "7", lv := "10", title := "Intro", lecturers := [],
    waitlist := some "3", waitlistCount := 3 }

/-- An item whose plan-point id is "12" and course id "34": the query "23"
matches the concatenated code `"1234"` across the boundary. -/
def codeSpanItem : Item := { pp := "12", lv := "34", title := "", lecturers := [] }

/-- One of the ten plan points of the budget scenario. -/
def scenarioRow (pp lv : String) : PlanRow :=
  { aId := some ("S" ++ pp), dlvoHref := some "u", dur := 6,
    fetch := some ⟨some [{ verIdText := some lv }]⟩ }

/-- Ten plan points taking 6 seconds each: the 25-second budget is crossed
while plan point 5 is being processed. -/
def scenarioRows : List PlanRow :=
  [scenarioRow "1" "11", scenarioRow "2" "12", scenarioRow "3" "13",
   scenarioRow "4" "14", scenarioRow "5" "15", scenarioRow "6" "16",
   scenarioRow "7" "17", scenarioRow "8" "18", scenarioRow "9" "19",
   scenarioRow "10" "20"]

def scenarioItem (pp lv : String) : Item :=
  { pp := pp, lv := lv, title := "", lecturers := [] }

/-- Two `_ensure_index` calls in quick succession followed by the first
statements of both spawned workers. -/
def raceSchedule : List BuildEv :=
  [.ensure 1000 false, .ensure 1000 false, .beginWorker 0 1001, .beginWorker 1 1002]

/-- A located row whose pre-submission status is a closed marker but which
carries no enrollment form. -/
def closedNoFormRow : EnrollRow :=
  { verIdText := some "10", statusText := some "Anmeldung gesperrt", formName := none }

def closedNoFormPage : EnrollPage := ⟨some [closedNoFormRow]⟩

/-- A located row with a closed status and a named enrollment form. -/
def closedFormRow : EnrollRow :=
  { verIdText := some "10", statusText := some "Anmeldung nicht möglich",
    formName := some "f1" }

/-- An enrollable row used by witnesses. -/
def openFormRow : EnrollRow :=
  { verIdText := some "10", statusText := some "", formName := some "f1" }

/-! ### Claim theorems -/

/-- C10: the claim says `_parse_lv_rows_fast` is total — it returns a boolean
without raising for every parsed LV page and token list, in particular for a
row that matches all query tokens but has no waitlist capacity element.  The
code violates this: on such a row the match branch re-evaluates the local
`span`, which was never assigned, raising `NameError` (and `AttributeError`
when `span` holds a stale `None`).  With an empty token list the parser is
total, which is the contrast the second conjunct records. -/
theorem parse_waitlist_unbound_local :
    parseLvRowsFast "7" nameErrorPage (searchTokens "x") none []
        = .error .nameError ∧
    (∀ (ppId : String) (page : LvPage) (cap : Option Nat) (acc : List Item),
      ∃ out b, parseLvRowsFast ppId page [] cap acc = .ok (out, b)) := by
  exact ⟨rfl, parseFast_nil_ok⟩

/-- C2: the claim asserts at most one build worker per account at any
instant.  The code sets `building = True` inside the worker thread, not
under `_CACHE_LOCK` at spawn time, so two quick `ensure_index` calls can
both observe `building = False` and spawn two workers: after the schedule
`[ensure, ensure, beginWorker 0, beginWorker 1]` two workers are active
simultaneously. -/
theorem ensure_index_spawn_race :
    (runBuild initSys raceSchedule).spawned = 2 ∧
    activeBuilders (runBuild initSys raceSchedule) = 2 ∧
    (runBuild initSys raceSchedule).entry =
      some { newEntry with building := true, buildStarted := some 1002 } := by
  exact ⟨rfl, rfl, rfl⟩

/-- C3: a rebuild worker that raises leaves the entry's items and updated
timestamp unchanged, records the exception message truncated to 500
characters in `last_error`, and resets `building` to false in every case. -/
theorem worker_failure_preserves_cache :
    ∀ (e : Entry) (result : Except String (List Item)) (tS tU tF : Nat),
      (workerRun e result tS tU tF).building = false ∧
      ∀ msg, result = .error msg →
        (workerRun e result tS tU tF).items = e.items ∧
        (workerRun e result tS tU tF).updated = e.updated ∧
        (workerRun e result tS tU tF).lastError = some (pyTruncate msg 500) ∧
        (pyTruncate msg 500).length ≤ 500 := by
  intro e result tS tU tF
  constructor
  · cases result <;> rfl
  · intro msg hmsg
    subst hmsg
    refine ⟨rfl, rfl, rfl, ?_⟩
    show (String.mk (msg.data.take 500)).data.length ≤ 500
    simp

/-- Witness for C3 at a concrete failing rebuild. -/
theorem worker_failure_preserves_cache_witness :
    (workerRun newEntry (.error "boom") 1 2 3).building = false ∧
    (workerRun newEntry (.error "boom") 1 2 3).items = newEntry.items ∧
    (workerRun newEntry (.error "boom") 1 2 3).updated = newEntry.updated ∧
    (workerRun newEntry (.error "boom") 1 2 3).lastError = some (pyTruncate "boom" 500) := by
  have h := worker_failure_preserves_cache newEntry (.error "boom") 1 2 3
  exact ⟨h.1, (h.2 "boom" rfl).1, (h.2 "boom" rfl).2.1, (h.2 "boom" rfl).2.2.1⟩

/-- C5: the builder returns exactly the items collected from the plan-point
prefix processed before the budget check fires, as a success.  First
conjunct: in general the budget loop succeeds and yields the budget-free
collection of a prefix, the whole list unless the budget was exceeded at
the stop.  Second conjunct: in the concrete 10-plan-point scenario where
the 25s budget is crossed while plan point 5 is processed, exactly the
items of plan points 1-5 are returned.  Third conjunct: a successful
worker publishes the returned list with `last_error = None`. -/
theorem build_budget_partial_prefix :
    (∀ (budget start : Nat) (rows : List PlanRow) (clock : Nat) (acc : List Item),
      ∃ n c items, n ≤ rows.length ∧
        buildLoop budget start rows clock acc = .ok (c, items) ∧
        collectItems (rows.take n) acc = .ok items ∧
        (n = rows.length ∨ budget < c - start)) ∧
    buildIndexModel 25 0 scenarioRows =
      .ok [scenarioItem "1" "11", scenarioItem "2" "12", scenarioItem "3" "13",
           scenarioItem "4" "14", scenarioItem "5" "15"] ∧
    (∀ (e : Entry) (items : List Item) (tS tU tF : Nat),
      (workerRun e (.ok items) tS tU tF).items = items ∧
      (workerRun e (.ok items) tS tU tF).lastError = none ∧
      (workerRun e (.ok items) tS tU tF).updated = tU ∧
      (workerRun e (.ok items) tS tU tF).building = false) := by
  refine ⟨fun budget start rows => buildLoop_prefix budget start rows, rfl, ?_⟩
  intro e items tS tU tF
  exact ⟨rfl, rfl, rfl, rfl⟩

/-- C4: with an empty query the handler returns the whole cache snapshot:
no filtering, no cap, cache order; and with a fresh timestamp the metadata
reports `fresh = true`.  (The empty token list disables every fallback
tier, so the oracle scans are never consulted.) -/
theorem empty_query_returns_cache :
    ∀ (limit : Option Int) (snapshot : List Item) (updated : Nat) (building : Bool)
      (lastError : Option String) (now : Nat) (prov broad : Except String (List Item)),
      updated ≠ 0 → now - updated < INDEX_TTL_SECONDS →
      (coursesSearch "" limit snapshot updated building lastError now prov broad).items
          = snapshot ∧
      (coursesSearch "" limit snapshot updated building lastError now prov broad).metaFresh
          = true := by
  intro limit snapshot updated building lastError now prov broad h0 hfresh
  have htok : searchTokens "" = [] := rfl
  have hq : normSub "" = "" := rfl
  constructor
  · show (broadPass (searchTokens "") (mkCap limit)
      (relaxedPass (searchTokens "") (mkCap limit) snapshot
        (provPass (searchTokens "") (mkCap limit) (strictPass "" (mkCap limit) snapshot) prov).1)
      broad).1 = snapshot
    rw [htok]
    have h1 : strictPass "" (mkCap limit) snapshot = snapshot := by
      simp [strictPass, hq]
    rw [h1]
    have h2 : provPass [] (mkCap limit) snapshot prov = (snapshot, none) := by
      simp [provPass]
    rw [h2]
    have h3 : relaxedPass [] (mkCap limit) snapshot snapshot = snapshot := by
      simp [relaxedPass]
    rw [h3]
    simp [broadPass]
  · show (if updated ≠ 0 then isFreshAt now { newEntry with updated := updated }
      else false) = true
    rw [if_pos h0]
    simpa [isFreshAt] using hfresh

/-- Witness for C4: a fresh one-item cache and an empty query. -/
theorem empty_query_returns_cache_witness :
    (coursesSearch "" (some 20) [codeSpanItem] 100 false none 200
        (.ok []) (.ok [])).items = [codeSpanItem] ∧
    (coursesSearch "" (some 20) [codeSpanItem] 100 false none 200
        (.ok []) (.ok [])).metaFresh = true := by
  have h := empty_query_returns_cache (some 20) [codeSpanItem] 100 false none 200
    (.ok []) (.ok []) (by decide) (by decide)
  exact ⟨h.1, h.2⟩

/-- C1 counterexample: the claim states that every item returned by a
strict-match tier matches every query token in title + lecturers + course
id.  (a) The cache tier's first pass matches the whole query as a substring
of `(pp + lv).lower()`: query `"23"` returns `codeSpanItem` (pp "12",
lv "34") although the token `"23"` occurs in neither title, lecturers nor
course id.  (b) The provisional strict filter matches against the full
title-cell text `fallback_full` as well: token `"zz"` emits
`fallbackOnlyItem` although title, lecturers and course id lack it. -/
theorem strict_tier_claim_cex :
    (coursesSearch "23" (some 20) [codeSpanItem] 1000 false none 1100
        (.ok []) (.ok [])).items = [codeSpanItem] ∧
    strictItemMatch (searchTokens "23") codeSpanItem = false ∧
    parseLvRowsFast "7" fallbackOnlyPage (searchTokens "zz") none []
        = .ok ([fallbackOnlyItem], false) ∧
    strictItemMatch (searchTokens "zz") fallbackOnlyItem = false := by
  exact ⟨rfl, rfl, rfl, rfl⟩

/-- C1 (amended): every item returned by the cache tier's first pass has the
normalized query as a substring of its folded title or of the lowercased
`pp ++ lv` code; every item appended by the provisional strict filter (with
a non-empty token list) was built from some row of the parsed page — its
title, lecturers and course id are that row's extracted values — and every
token occurs in the normalized concatenation of that row's title, raw
lecturer string, course id and full title-cell text. -/
theorem strict_tier_matches :
    (∀ (qnorm : String) (cap : Option Nat) (items : List Item) (it : Item),
        it ∈ filterCap (strictCachePred qnorm) cap items 0 →
        (strIn qnorm (normSub it.title) || strIn qnorm (pyLower (it.pp ++ it.lv)))
          = true) ∧
    (∀ (ppId : String) (tokens : List String) (cap : Option Nat)
        (rows : List LvRow) (acc out : List Item) (b : Bool), tokens ≠ [] →
        parseLvRowsFast ppId ⟨some rows⟩ tokens cap acc = .ok (out, b) →
        ∀ it ∈ out, it ∈ acc ∨ ∃ r ∈ rows,
          it.title = (computeTitle r (rowProf r)).1 ∧
          it.lecturers = splitLecturers (rowProf r) ∧
          rowLvId r = some it.lv ∧
          (tokens.all fun t => strIn t (pynorm (filterJoin
            [it.title, rowProf r, it.lv, rowFallbackFull r]))) = true) := by
  constructor
  · intro qnorm cap items it h
    have := filterCap_mem h
    simpa [strictCachePred] using this.1
  · intro ppId tokens cap rows acc out b ht h it hit
    exact parseLoop_mem ht rows none acc out b h it hit

/-- Witness for C1 (amended), on concrete inputs of both tiers. -/
theorem strict_tier_matches_witness :
    (strIn "intro" (normSub "Intro to X")
        || strIn "intro" (pyLower ("1" ++ "10"))) = true ∧
    (fallbackOnlyItem ∈ ([] : List Item) ∨
      ∃ r ∈ [fallbackOnlyRow],
        fallbackOnlyItem.title = (computeTitle r (rowProf r)).1 ∧
        fallbackOnlyItem.lecturers = splitLecturers (rowProf r) ∧
        rowLvId r = some fallbackOnlyItem.lv ∧
        ((searchTokens "zz").all fun t => strIn t (pynorm (filterJoin
          [fallbackOnlyItem.title, rowProf r, fallbackOnlyItem.lv,
            rowFallbackFull r]))) = true) := by
  have h := strict_tier_matches
  constructor
  · exact h.1 "intro" (some 20)
      [{ pp := "1", lv := "10", title := "Intro to X", lecturers := [] }]
      { pp := "1", lv := "10", title := "Intro to X", lecturers := [] } (by decide)
  · exact h.2 "7" (searchTokens "zz") none [fallbackOnlyRow] [] [fallbackOnlyItem]
      false (by decide) rfl fallbackOnlyItem (by decide)

/-- C8 counterexample: the claim says `meta.provisional` is true iff a live
scan was executed.  With an empty cache and an empty query no tier runs (the
token list is empty), yet the handler reports `provisional = true` because
the snapshot is empty. -/
theorem provisional_meta_cex :
    (coursesSearch "" (some 20) [] 0 false none 1000 (.ok []) (.ok [])).metaProvisional
        = true ∧
    (coursesSearch "" (some 20) [] 0 false none 1000 (.ok []) (.ok [])).tier2Ran
        = false ∧
    (coursesSearch "" (some 20) [] 0 false none 1000 (.ok []) (.ok [])).tier4Ran
        = false := by
  exact ⟨rfl, rfl, rfl⟩

/-- C8 (amended): `meta.provisional` is true iff the cache snapshot was
empty or a provisional scan path executed; since the broad tier only runs
after the first provisional tier, that is equivalent to "snapshot empty or
some provisional scan executed". -/
theorem provisional_meta_iff :
    ∀ (q : String) (limit : Option Int) (snapshot : List Item) (updated : Nat)
      (building : Bool) (lastError : Option String) (now : Nat)
      (prov broad : Except String (List Item)),
      ((coursesSearch q limit snapshot updated building lastError now prov broad).metaProvisional
          = true ↔
        snapshot = [] ∨
        (coursesSearch q limit snapshot updated building lastError now prov broad).tier2Ran
            = true ∨
        (coursesSearch q limit snapshot updated building lastError now prov broad).tier4Ran
            = true) := by
  intro q limit snapshot updated building lastError now prov broad
  simp only [coursesSearch, decide_eq_true_eq]
  constructor
  · rintro (h | h)
    · exact Or.inl h
    · exact Or.inr (Or.inl h)
  · rintro (h | h | h)
    · exact Or.inl h
    · exact Or.inr h
    · exact Or.inr ⟨provPass_fst_empty (relaxedPass_empty h.1), h.2⟩

/-- C9: (1) the relaxed cache tier runs only when the strict cache tier and
the provisional tier both produced nothing, the token list is non-empty and
the snapshot is non-empty; (2) every item the relaxed filter returns has at
least one token in the normalized concatenation of title, lecturer names
and course id; (3) the relaxed filter returns at most `cap` items. -/
theorem relaxed_tier_gating_and_match :
    (∀ (q : String) (limit : Option Int) (snapshot : List Item) (updated : Nat)
        (building : Bool) (lastError : Option String) (now : Nat)
        (prov broad : Except String (List Item)),
        (coursesSearch q limit snapshot updated building lastError now prov broad).relaxedRan
            = true →
        (coursesSearch q limit snapshot updated building lastError now prov broad).tier1Items
            = [] ∧
        (coursesSearch q limit snapshot updated building lastError now prov broad).tier2Items
            = [] ∧
        searchTokens q ≠ [] ∧ snapshot ≠ []) ∧
    (∀ (tokens : List String) (cap : Option Nat) (snapshot : List Item) (it : Item),
        it ∈ relaxedList tokens cap snapshot →
        (tokens.any fun t => strIn t (pynorm (filterJoin
          [it.title, joinSpace it.lecturers, it.lv]))) = true) ∧
    (∀ (tokens : List String) (c : Nat) (snapshot : List Item),
        0 < c → (relaxedList tokens (some c) snapshot).length ≤ c) := by
  refine ⟨?_, ?_, ?_⟩
  · intro q limit snapshot updated building lastError now prov broad h
    simp only [coursesSearch, decide_eq_true_eq] at h ⊢
    exact ⟨provPass_fst_empty h.1, h.1, h.2.1, h.2.2⟩
  · intro tokens cap snapshot it h
    simp only [relaxedList] at h
    have := filterCap_mem h
    simpa [relaxedPred, relaxedHay] using this.1
  · intro tokens c snapshot hc
    have := filterCap_length (p := relaxedPred tokens) (c := c) snapshot 0 hc
    simpa [relaxedList] using this

/-- An item matched only by the relaxed tier in the C9 witness. -/
def statskursItem : Item := { pp := "1", lv := "10", title := "Statskurs", lecturers := [] }

/-- Witness for C9: a query whose strict pass and provisional scan are empty
but whose relaxed pass matches the cached item. -/
theorem relaxed_tier_gating_and_match_witness :
    ((coursesSearch "stats foo" (some 20) [statskursItem] 0 false none 1000
        (.ok []) (.ok [])).tier1Items = [] ∧
     (coursesSearch "stats foo" (some 20) [statskursItem] 0 false none 1000
        (.ok []) (.ok [])).tier2Items = [] ∧
     searchTokens "stats foo" ≠ [] ∧ [statskursItem] ≠ []) ∧
    ((searchTokens "stats").any fun t => strIn t (pynorm (filterJoin
      [statskursItem.title, joinSpace statskursItem.lecturers, statskursItem.lv]))) = true ∧
    (relaxedList (searchTokens "stats") (some 20) [statskursItem]).length ≤ 20 := by
  have h := relaxed_tier_gating_and_match
  refine ⟨h.1 "stats foo" (some 20) [statskursItem] 0 false none 1000
    (.ok []) (.ok []) rfl, ?_, ?_⟩
  · exact h.2.1 (searchTokens "stats") (some 20) [statskursItem] statskursItem (by decide)
  · exact h.2.2 (searchTokens "stats") 20 [statskursItem] (by decide)

/-- C6 counterexample: the claim says an attempt against a located row whose
pre-submission status matches a closed marker returns `closed`.  For a
closed row without an enrollment form the code raises 404 (the form check
precedes the closed check), so the outcome is an error, not `closed`. -/
theorem enroll_preclosed_noform_cex :
    (closedMarkers.any fun k => strIn k (locateLvRow "10" [closedNoFormRow]).1) = true ∧
    submitEnrollOnLvPage closedNoFormPage "10" true (some "x") none
        = .error .notFound := by
  exact ⟨rfl, rfl⟩

/-- C6 (amended): if the located row additionally carries a named enrollment
form, a closed pre-submission status short-circuits to `closed` and the
submit operation is never invoked. -/
theorem enroll_preclosed_shortcircuit :
    ∀ (rows : List EnrollRow) (lvId : String) (fs : Bool) (subR confR : Option String)
      (ps nm : String),
      locateLvRow lvId rows = (ps, some nm) →
      (closedMarkers.any fun k => strIn k ps) = true →
      submitEnrollOnLvPage ⟨some rows⟩ lvId fs subR confR = .ok ⟨.closed, false⟩ := by
  intro rows lvId fs subR confR ps nm hloc hcl
  simp [submitEnrollOnLvPage, hloc, hcl]

/-- Witness for C6 (amended): a closed row with a form yields `closed`
without submitting. -/
theorem enroll_preclosed_shortcircuit_witness :
    submitEnrollOnLvPage ⟨some [closedFormRow]⟩ "10" true (some "x") none
        = .ok ⟨.closed, false⟩ := by
  exact enroll_preclosed_shortcircuit [closedFormRow] "10" true (some "x") none
    "anmeldung nicht möglich" "f1" rfl (by decide)

/-- C7 counterexample: the claim says every enrollment attempt ends with one
of the five terminal outcomes.  An attempt against a DLVO page without the
LV table ends with an HTTP 502 error instead of any terminal outcome. -/
theorem enroll_outcome_set_cex :
    submitEnrollOnLvPage ⟨none⟩ "10" true (some "x") none = .error .badGateway := by
  exact rfl

/-- C7 (amended): an attempt that does not abort with a typed error ends
with exactly one outcome of {success, waitlist, already, closed, unknown}:
either the pre-closed short-circuit (`closed`, nothing submitted) or the
classification of the final page text of its successful first submit (the
confirm-step replacement included); and the classification scans the marker
sets in the priority order success > waitlist > already > closed > unknown,
as the characterization in the first conjunct states. -/
theorem enroll_outcome_classification :
    (∀ p : String,
      (classifyOutcome p = .success ↔
        (successMarkers.any fun k => strIn k p) = true) ∧
      (classifyOutcome p = .waitlist ↔
        (successMarkers.any fun k => strIn k p) = false ∧
        (strIn "warteliste" p || strIn "auf die warteliste" p) = true) ∧
      (classifyOutcome p = .already ↔
        (successMarkers.any fun k => strIn k p) = false ∧
        (strIn "warteliste" p || strIn "auf die warteliste" p) = false ∧
        (alreadyMarkers.any fun k => strIn k p) = true) ∧
      (classifyOutcome p = .closed ↔
        (successMarkers.any fun k => strIn k p) = false ∧
        (strIn "warteliste" p || strIn "auf die warteliste" p) = false ∧
        (alreadyMarkers.any fun k => strIn k p) = false ∧
        (closedMarkers.any fun k => strIn k p) = true) ∧
      (classifyOutcome p = .unknown ↔
        (successMarkers.any fun k => strIn k p) = false ∧
        (strIn "warteliste" p || strIn "auf die warteliste" p) = false ∧
        (alreadyMarkers.any fun k => strIn k p) = false ∧
        (closedMarkers.any fun k => strIn k p) = false)) ∧
    (∀ (page : EnrollPage) (lvId : String) (fs : Bool) (subR confR : Option String)
        (r : EnrollResult),
        submitEnrollOnLvPage page lvId fs subR confR = .ok r →
        (r.result = .closed ∧ r.submitted = false) ∨
        (∃ t1, subR = some t1 ∧
          r.result = classifyOutcome (finalPageText t1 confR) ∧
          r.submitted = true)) := by
  constructor
  · intro p
    unfold classifyOutcome
    cases h1 : (successMarkers.any fun k => strIn k p) <;>
      cases h2 : (strIn "warteliste" p || strIn "auf die warteliste" p) <;>
      cases h3 : (alreadyMarkers.any fun k => strIn k p) <;>
      cases h4 : (closedMarkers.any fun k => strIn k p) <;>
      simp [h1, h2, h3, h4]
  · intro page lvId fs subR confR r h
    rcases page with ⟨_ | rows⟩
    · cases h
    · simp only [submitEnrollOnLvPage] at h
      split at h
      · cases h
      · split at h
        · rename_i hcl
          cases h
          exact Or.inl ⟨rfl, rfl⟩
        · split at h
          · cases h
          · rcases hsub : subR with _ | t1 <;> rw [hsub] at h
            · cases h
            · cases h
              exact Or.inr ⟨t1, rfl, rfl, rfl⟩

/-- Witness for C7 (amended): a successful enrollment ends with exactly the
classification of its final page text. -/
theorem enroll_outcome_classification_witness :
    ((⟨.success, true⟩ : EnrollResult).result = .closed ∧
      (⟨.success, true⟩ : EnrollResult).submitted = false) ∨
    (∃ t1 : String, some "Anmeldung erfolgreich" = some t1 ∧
      (⟨.success, true⟩ : EnrollResult).result
          = classifyOutcome (finalPageText t1 none) ∧
      (⟨.success, true⟩ : EnrollResult).submitted = true) := by
  exact enroll_outcome_classification.2 ⟨some [openFormRow]⟩ "10" true
    (some "Anmeldung erfolgreich") none ⟨.success, true⟩ rfl

end Lpis
